import Mathlib

/-!
Shallow embedding of `src/list_bot.py` (telegram-list-bot): an in-memory
collaborative list bot.  The global dict `list_items` becomes a function
`ChatId → Option (List ListEntry)`; each handler becomes a pure function from
its inputs to (new data, outbound messages, optional Python exception); the
dispatch performed by `telegram.ext.Application` and its two
`ConversationHandler`s over the handlers registered in `main` is modelled by
the `step` function below.
-/

/-- One list record `{item: str, person: str, comment: str}` (list_bot.py line 25). -/
structure ListEntry where
  item : String
  person : String
  comment : String
deriving DecidableEq

/-- Telegram chat identifier (a Python int). -/
abbrev ChatId := Int

/-- Telegram user identifier (a Python int). -/
abbrev UserId := Int

/-- The global dict `list_items` (line 26); `none` models an absent key. -/
def Store := ChatId → Option (List ListEntry)

/-- Dict assignment `list_items[c] = l`. -/
def storeSet (s : Store) (c : ChatId) (l : List ListEntry) : Store :=
  fun c2 => if c2 = c then some l else s c2

/-- The empty initial dict. -/
def emptyStore : Store := fun _ => none

/-- Read view used throughout the code: the chat entry if present, else the empty
list (reads are guarded by `chat_id not in list_items or not list_items[chat_id]`). -/
def listEntries (s : Store) (c : ChatId) : List ListEntry :=
  (s c).getD []

/-- Python exceptions the handlers can raise. -/
inductive PyError where
  | keyError
  | indexError
deriving DecidableEq

/-- Telegram callback data, abstracted from the strings the code matches on:
`removeTag i` stands for the string "remove_" followed by the decimal integer
`i` (the code parses it with `int(query.data.split("_")[1])`, line 145);
`cancelTag` is "cancel"; `otherClear` is any other string matching the pattern
"^clear_"; `other` is any remaining string. -/
inductive CbData where
  | cancelTag
  | removeTag (idx : Int)
  | clearConfirm
  | clearCancel
  | otherClear
  | other
deriving DecidableEq

/-- Outbound gateway operations (`reply_text` and `edit_message_text`; the
`query.answer()` acknowledgement is not a user-visible message and is not
modelled). -/
inductive Out where
  | send (text : String)
  | sendKeyboard (text : String) (buttons : List (String × CbData))
  | edit (text : String)
deriving DecidableEq

/-- Python `l.pop(i)`: a negative index counts from the end of the list; an index
still out of range after that normalisation raises IndexError (`none`). -/
def pythonPop (l : List ListEntry) (i : Int) : Option (ListEntry × List ListEntry) :=
  let j : Int := if i < 0 then i + l.length else i
  if h : 0 ≤ j ∧ j < (l.length : Int) then
    some (l.get ⟨j.toNat, by omega⟩, l.eraseIdx j.toNat)
  else
    none

/-- Handler `start` (lines 28-35). -/
def startMsg : Out :=
  Out.send "Welcome to the Collaborative List Bot!\n\nUse /list to view the current list\nUse /add to add a new item\nUse /help to see all available commands"

/-- Handler `help_command` (lines 37-48). -/
def helpMsg : Out :=
  Out.send "Available commands:\n\n/start - Start the bot\n/help - Show this help message\n/list - View the current list\n/add - Add a new item to the list\n/remove - Remove an item from the list\n/clear - Clear the entire list"

/-- One item block of the `view_list` message (lines 59-60). -/
def viewLine (i : Nat) (e : ListEntry) : String :=
  toString i ++ ". Item: " ++ e.item ++ "\n   Person: " ++ e.person ++ "\n   Comment: " ++ e.comment ++ "\n\n"

/-- Handler `view_list` (lines 50-62). -/
def view_list (s : Store) (c : ChatId) : List Out :=
  match s c with
  | none => [Out.send "The list is empty. Use /add to add items."]
  | some l =>
    if l = [] then [Out.send "The list is empty. Use /add to add items."]
    else [Out.send ((l.enum.map (fun p => viewLine (p.1 + 1) p.2)).foldl (· ++ ·) "📋 Current List:\n\n")]

/-- Reply of handler `add_command` (lines 64-67); the add conversation enters
state ITEM. -/
def addCommandMsg : Out := Out.send "Please enter the item name:"

/-- The `context.user_data` dict: python-telegram-bot keys it by user id only (one
dict per user, shared across that user's chats).  Only "item" and "person" are
ever stored in it. -/
structure UserData where
  item : Option String
  person : Option String
deriving DecidableEq

/-- The cleared / fresh user_data dict. -/
def emptyUD : UserData := ⟨none, none⟩

/-- Handler `receive_item` (lines 69-73): records the item name, asks for the
person; the add conversation moves to state PERSON. -/
def receive_item (ud : UserData) (text : String) : UserData × List Out :=
  ({ ud with item := some text }, [Out.send "Who will provide this item?"])

/-- Handler `receive_person` (lines 75-79): records the person, asks for a
comment; the add conversation moves to state COMMENT. -/
def receive_person (ud : UserData) (text : String) : UserData × List Out :=
  ({ ud with person := some text }, [Out.send "Any comments? (or type \x27none\x27 if no comments)"])

/-- Result of `receive_comment`: new store, new user_data, replies, and the
exception, if one was raised. -/
structure CommentRes where
  store : Store
  ud : UserData
  outs : List Out
  err : Option PyError

/-- Python `str.lower`, modelled as lowercasing every character (Lean's
`Char.toLower`); the two agree on ASCII strings, and only ASCII strings
lowercase to "none". -/
def pyLower (s : String) : String :=
  String.mk (s.data.map Char.toLower)

/-- Handler `receive_comment` (lines 81-107): creates the chat's list if absent,
normalises a comment whose lowercasing is "none" to "-", builds the entry from
`user_data["item"]` and `user_data["person"]` (KeyError if a key is absent,
after the store key was already created), appends it, clears user_data and
acknowledges. -/
def receive_comment (s : Store) (c : ChatId) (ud : UserData) (text : String) : CommentRes :=
  let s1 : Store := if s c = none then storeSet s c [] else s
  let comment : String := if pyLower text = "none" then "-" else text
  match ud.item with
  | none => ⟨s1, ud, [], some PyError.keyError⟩
  | some i =>
    match ud.person with
    | none => ⟨s1, ud, [], some PyError.keyError⟩
    | some p =>
      ⟨storeSet s1 c (listEntries s1 c ++ [⟨i, p, comment⟩]), emptyUD,
        [Out.send ("Added: " ++ i ++ " (Person: " ++ p ++ ")\n\nUse /list to view the updated list.")],
        none⟩

/-- Handler `cancel` (lines 109-113): acknowledges and clears user_data; the
conversation it was dispatched from ends. -/
def cancel (_ud : UserData) : UserData × List Out :=
  (emptyUD, [Out.send "Operation cancelled."])

/-- Keyboard built by `remove_command` (lines 123-127): one button per entry,
labelled with its 1-based position, item and person, carrying the tag
"remove_{i-1}", plus a Cancel button. -/
def removeKeyboard (l : List ListEntry) : List (String × CbData) :=
  (l.enum.map fun p =>
    (toString (p.1 + 1) ++ ". " ++ p.2.item ++ " (" ++ p.2.person ++ ")",
      CbData.removeTag (p.1 : Int)))
  ++ [("Cancel", CbData.cancelTag)]

/-- Handler `remove_command` (lines 115-131): with an empty or absent list it
replies and ends; otherwise it presents the keyboard and the remove
conversation enters SELECTING_ITEM (the returned Bool). -/
def remove_command (s : Store) (c : ChatId) : Bool × List Out :=
  if listEntries s c = [] then
    (false, [Out.send "The list is empty. Nothing to remove."])
  else
    (true, [Out.sendKeyboard "Select an item to remove:" (removeKeyboard (listEntries s c))])

/-- Result of `button_callback`: new store, replies, and the exception, if one
was raised. -/
structure CbRes where
  store : Store
  outs : List Out
  err : Option PyError

/-- Handler `button_callback` (lines 133-152): "cancel" acknowledges; "remove_i"
reads `list_items[chat_id]` (KeyError when the key is absent) and pops index
`i` whenever `i < len` — Python pop semantics, so a negative `i` removes from
the end or raises IndexError — else replies "Error: Item not found."; any
other data falls through silently.  On normal return the remove conversation
ends. -/
def button_callback (s : Store) (c : ChatId) (d : CbData) : CbRes :=
  match d with
  | CbData.cancelTag => ⟨s, [Out.edit "Operation cancelled."], none⟩
  | CbData.removeTag idx =>
    match s c with
    | none => ⟨s, [], some PyError.keyError⟩
    | some l =>
      if idx < (l.length : Int) then
        match pythonPop l idx with
        | none => ⟨s, [], some PyError.indexError⟩
        | some (e, l2) =>
          ⟨storeSet s c l2,
            [Out.edit ("Removed: " ++ e.item ++ " (Person: " ++ e.person ++ ")")], none⟩
      else
        ⟨s, [Out.edit "Error: Item not found."], none⟩
  | _ => ⟨s, [], none⟩

/-- Confirmation keyboard sent by handler `clear_list` (lines 154-169); no state
or store change. -/
def clearPrompt : Out :=
  Out.sendKeyboard "Are you sure you want to clear the entire list?"
    [("Yes, clear it", CbData.clearConfirm), ("No, keep it", CbData.clearCancel)]

/-- Handler `clear_button_callback` (lines 171-182): "clear_confirm" replaces
the chat's entry with the empty list; any other data reaching it leaves the
store alone. -/
def clear_button_callback (s : Store) (c : ChatId) (d : CbData) : Store × List Out :=
  if d = CbData.clearConfirm then
    (storeSet s c [], [Out.edit "The list has been cleared."])
  else
    (s, [Out.edit "Clear operation cancelled. The list remains unchanged."])

/-- States of the add ConversationHandler (ITEM, PERSON, COMMENT; line 21). -/
inductive AddState where
  | item
  | person
  | comment
deriving DecidableEq

/-- Conversation-handler state for one (chat, user) key: `add` is the add
ConversationHandler state (`none` = no active add conversation), `selecting`
is true while the remove ConversationHandler is in SELECTING_ITEM. -/
structure Session where
  add : Option AddState
  selecting : Bool
deriving DecidableEq

/-- No conversation in progress. -/
def idleSession : Session := ⟨none, false⟩

/-- Full system state: the store, the per-(chat, user) conversation states
(python-telegram-bot keys ConversationHandler by chat and user by default),
and the per-user `user_data` dicts. -/
structure SysState where
  list_items : Store
  session : ChatId → UserId → Session
  user_data : UserId → UserData

/-- Replace the store. -/
def SysState.setStore (σ : SysState) (s : Store) : SysState :=
  { σ with list_items := s }

/-- Update one (chat, user) conversation state. -/
def SysState.setSession (σ : SysState) (c : ChatId) (u : UserId) (v : Session) : SysState :=
  { σ with session := fun c2 u2 => if c2 = c ∧ u2 = u then v else σ.session c2 u2 }

/-- Update one user's user_data dict. -/
def SysState.setUD (σ : SysState) (u : UserId) (d : UserData) : SysState :=
  { σ with user_data := fun u2 => if u2 = u then d else σ.user_data u2 }

/-- Fresh-process state: empty store, all sessions idle, all user_data empty. -/
def initState : SysState :=
  ⟨emptyStore, fun _ _ => idleSession, fun _ => emptyUD⟩

/-- Inbound events as pre-classified by the gateway: a slash command (by name),
a plain non-command text message, or a callback-button press. -/
inductive Ev where
  | cmd (chat : ChatId) (user : UserId) (name : String)
  | msg (chat : ChatId) (user : UserId) (text : String)
  | cb (chat : ChatId) (user : UserId) (data : CbData)

/-- The chat an event arrives in. -/
def Ev.chat : Ev → ChatId
  | .cmd c _ _ => c
  | .msg c _ _ => c
  | .cb c _ _ => c

/-- The user an event comes from. -/
def Ev.user : Ev → UserId
  | .cmd _ u _ => u
  | .msg _ u _ => u
  | .cb _ u _ => u

/-- Callback data matching the pattern "^clear_" of the CallbackQueryHandler
registered on line 221. -/
def isClearData : CbData → Bool
  | CbData.clearConfirm => true
  | CbData.clearCancel => true
  | CbData.otherClear => true
  | _ => false

/-- Result of dispatching one event: next state, replies, and the exception, if
the chosen handler raised one. -/
structure StepRes where
  state : SysState
  outs : List Out
  err : Option PyError

/-- One round of `Application.process_update` over the handlers registered in
`main` (lines 197-223), tried in registration order: the CommandHandlers for
start, help, list and clear; the CallbackQueryHandler with pattern "^clear_";
the add ConversationHandler; the remove ConversationHandler.
ConversationHandler semantics (allow_reentry is left at its default False):
entry points are consulted only when no conversation is active for the
(chat, user) key; otherwise the active state's handlers and then the
fallbacks are consulted, and an unmatched update falls through to the next
registered handler.  A raised exception (err ≠ none) aborts the handler,
keeping its earlier mutations and leaving the conversation state where it
was. -/
def step (σ : SysState) (e : Ev) : StepRes :=
  match e with
  | Ev.cmd c u name =>
    if name = "start" then ⟨σ, [startMsg], none⟩
    else if name = "help" then ⟨σ, [helpMsg], none⟩
    else if name = "list" then ⟨σ, view_list σ.list_items c, none⟩
    else if name = "clear" then ⟨σ, [clearPrompt], none⟩
    else if name = "add" then
      if (σ.session c u).add.isSome then ⟨σ, [], none⟩
      else ⟨σ.setSession c u { σ.session c u with add := some AddState.item }, [addCommandMsg], none⟩
    else if name = "remove" then
      if (σ.session c u).selecting then ⟨σ, [], none⟩
      else
        let r := remove_command σ.list_items c
        if r.1 then ⟨σ.setSession c u { σ.session c u with selecting := true }, r.2, none⟩
        else ⟨σ, r.2, none⟩
    else if name = "cancel" then
      if (σ.session c u).add.isSome then
        let r := cancel (σ.user_data u)
        ⟨(σ.setSession c u { σ.session c u with add := none }).setUD u r.1, r.2, none⟩
      else if (σ.session c u).selecting then
        let r := cancel (σ.user_data u)
        ⟨(σ.setSession c u { σ.session c u with selecting := false }).setUD u r.1, r.2, none⟩
      else ⟨σ, [], none⟩
    else ⟨σ, [], none⟩
  | Ev.msg c u t =>
    match (σ.session c u).add with
    | some AddState.item =>
      let r := receive_item (σ.user_data u) t
      ⟨(σ.setSession c u { σ.session c u with add := some AddState.person }).setUD u r.1, r.2, none⟩
    | some AddState.person =>
      let r := receive_person (σ.user_data u) t
      ⟨(σ.setSession c u { σ.session c u with add := some AddState.comment }).setUD u r.1, r.2, none⟩
    | some AddState.comment =>
      let r := receive_comment σ.list_items c (σ.user_data u) t
      match r.err with
      | some e2 => ⟨(σ.setStore r.store).setUD u r.ud, r.outs, some e2⟩
      | none =>
        ⟨((σ.setStore r.store).setSession c u { σ.session c u with add := none }).setUD u r.ud,
          r.outs, none⟩
    | none => ⟨σ, [], none⟩
  | Ev.cb c u d =>
    if isClearData d then
      let r := clear_button_callback σ.list_items c d
      ⟨σ.setStore r.1, r.2, none⟩
    else if (σ.session c u).selecting then
      let r := button_callback σ.list_items c d
      match r.err with
      | some e2 => ⟨σ.setStore r.store, r.outs, some e2⟩
      | none =>
        ⟨(σ.setStore r.store).setSession c u { σ.session c u with selecting := false },
          r.outs, none⟩
    else ⟨σ, [], none⟩

/-- Dispatch a sequence of events. -/
def multiStep (σ : SysState) : List Ev → SysState
  | [] => σ
  | e :: es => multiStep (step σ e).state es

/-- States reachable from the fresh-process state. -/
inductive Reachable : SysState → Prop where
  | init : Reachable initState
  | step (σ : SysState) (e : Ev) : Reachable σ → Reachable (step σ e).state

/-- Modelled from the spec: the §3 `SessionState` tagged union (Idle,
AwaitingItem, AwaitingPerson(item), AwaitingComment(item, person),
AwaitingRemovalSelection), used to read the spec-level session of a
(chat, user) key off the implementation state. -/
inductive SessionState where
  | idle
  | awaitingItem
  | awaitingPerson (item : String)
  | awaitingComment (item : String) (person : String)
  | awaitingRemovalSelection
deriving DecidableEq

/-- Spec-level view of one (chat, user) session: the dialog step recorded by the
conversation handlers together with the partial data the spec says that step
carries (read from the user_data dict the implementation smuggles it in). -/
def specSessionState (σ : SysState) (c : ChatId) (u : UserId) : SessionState :=
  match (σ.session c u).add with
  | some AddState.item => SessionState.awaitingItem
  | some AddState.person => SessionState.awaitingPerson (((σ.user_data u).item).getD "")
  | some AddState.comment =>
    SessionState.awaitingComment (((σ.user_data u).item).getD "") (((σ.user_data u).person).getD "")
  | none =>
    if (σ.session c u).selecting then SessionState.awaitingRemovalSelection
    else SessionState.idle

/-- The three free-text steps of the Add-Item dialog run back to back on fresh
user_data (as after /add from idle): receive_item, receive_person,
receive_comment. -/
def runAddDialog (s : Store) (c : ChatId) (t1 t2 t3 : String) : CommentRes :=
  let r1 := receive_item emptyUD t1
  let r2 := receive_person r1.1 t2
  receive_comment s c r2.1 t3

/-- Invariant: whenever a (chat, user) remove conversation is in SELECTING_ITEM,
the chat's key is present in `list_items` (the removal menu is shown only for a
non-empty list, and no operation ever deletes a key). -/
def SelInv (σ : SysState) : Prop :=
  ∀ (c : ChatId) (u : UserId), (σ.session c u).selecting = true →
    (σ.list_items c).isSome = true

/-- Fixture: a store holding a single entry for chat 0. -/
def oneEntryStore : Store := storeSet emptyStore 0 [⟨"A", "B", "x"⟩]

/-- Fixture: a store holding two entries for chat 0. -/
def twoEntryStore : Store := storeSet emptyStore 0 [⟨"A", "B", "x"⟩, ⟨"C", "D", "y"⟩]

/-- Fixture: chat 0 has an empty (drained) list and user 7 sits in
SELECTING_ITEM of the remove dialog. -/
def drainedSelState : SysState :=
  (initState.setStore (storeSet emptyStore 0 [])).setSession 0 7 ⟨none, true⟩

/-- Fixture: user 7 ran /add and answered "Milk" in chat 1 — the add dialog sits
in state PERSON with the partial item recorded. -/
def midAddState : SysState :=
  multiStep initState [Ev.cmd 1 7 "add", Ev.msg 1 7 "Milk"]

/-- Fixture: user 7 is mid add-dialog in chat 2 (item "Beer" recorded, awaiting
the person) and has just entered the add dialog in chat 1 as well. -/
def twoChatState : SysState :=
  multiStep initState [Ev.cmd 2 7 "add", Ev.msg 2 7 "Beer", Ev.cmd 1 7 "add"]

/-! Helper lemmas about the state setters and the dispatcher. -/

theorem storeSet_self (s : Store) (c : ChatId) (l : List ListEntry) :
    storeSet s c l c = some l := by
  simp [storeSet]

theorem storeSet_ne (s : Store) (c c2 : ChatId) (l : List ListEntry) (h : c2 ≠ c) :
    storeSet s c l c2 = s c2 := by
  simp [storeSet, h]

@[simp] theorem setStore_list_items (σ : SysState) (s : Store) :
    (σ.setStore s).list_items = s := rfl

@[simp] theorem setStore_session (σ : SysState) (s : Store) :
    (σ.setStore s).session = σ.session := rfl

@[simp] theorem setStore_user_data (σ : SysState) (s : Store) :
    (σ.setStore s).user_data = σ.user_data := rfl

@[simp] theorem setSession_list_items (σ : SysState) (c : ChatId) (u : UserId) (v : Session) :
    (σ.setSession c u v).list_items = σ.list_items := rfl

@[simp] theorem setSession_user_data (σ : SysState) (c : ChatId) (u : UserId) (v : Session) :
    (σ.setSession c u v).user_data = σ.user_data := rfl

theorem setSession_self (σ : SysState) (c : ChatId) (u : UserId) (v : Session) :
    (σ.setSession c u v).session c u = v := by
  simp [SysState.setSession]

theorem setSession_ne (σ : SysState) (c c2 : ChatId) (u u2 : UserId) (v : Session)
    (h : ¬(c2 = c ∧ u2 = u)) : (σ.setSession c u v).session c2 u2 = σ.session c2 u2 := by
  simp [SysState.setSession, h]

@[simp] theorem setUD_list_items (σ : SysState) (u : UserId) (d : UserData) :
    (σ.setUD u d).list_items = σ.list_items := rfl

@[simp] theorem setUD_session (σ : SysState) (u : UserId) (d : UserData) :
    (σ.setUD u d).session = σ.session := rfl

theorem setUD_self (σ : SysState) (u : UserId) (d : UserData) :
    (σ.setUD u d).user_data u = d := by
  simp [SysState.setUD]

theorem setUD_ne (σ : SysState) (u u2 : UserId) (d : UserData) (h : u2 ≠ u) :
    (σ.setUD u d).user_data u2 = σ.user_data u2 := by
  simp [SysState.setUD, h]

theorem step_cmd_add_idle (σ : SysState) (c : ChatId) (u : UserId)
    (h : (σ.session c u).add = none) :
    step σ (Ev.cmd c u "add") =
      ⟨σ.setSession c u { σ.session c u with add := some AddState.item }, [addCommandMsg], none⟩ := by
  simp only [step, if_neg (show ¬("add" : String) = "start" by decide),
    if_neg (show ¬("add" : String) = "help" by decide),
    if_neg (show ¬("add" : String) = "list" by decide),
    if_neg (show ¬("add" : String) = "clear" by decide), if_pos rfl, h]
  rfl

theorem step_cmd_add_active (σ : SysState) (c : ChatId) (u : UserId)
    (h : (σ.session c u).add.isSome = true) :
    step σ (Ev.cmd c u "add") = ⟨σ, [], none⟩ := by
  simp only [step, if_neg (show ¬("add" : String) = "start" by decide),
    if_neg (show ¬("add" : String) = "help" by decide),
    if_neg (show ¬("add" : String) = "list" by decide),
    if_neg (show ¬("add" : String) = "clear" by decide), if_pos rfl, h]
  rfl

theorem step_cmd_remove (σ : SysState) (c : ChatId) (u : UserId)
    (h : (σ.session c u).selecting = false) :
    step σ (Ev.cmd c u "remove") =
      (if (remove_command σ.list_items c).1 then
        ⟨σ.setSession c u { σ.session c u with selecting := true },
          (remove_command σ.list_items c).2, none⟩
      else ⟨σ, (remove_command σ.list_items c).2, none⟩) := by
  simp only [step, if_neg (show ¬("remove" : String) = "start" by decide),
    if_neg (show ¬("remove" : String) = "help" by decide),
    if_neg (show ¬("remove" : String) = "list" by decide),
    if_neg (show ¬("remove" : String) = "clear" by decide),
    if_neg (show ¬("remove" : String) = "add" by decide), if_pos rfl, h]
  rfl

theorem step_cmd_remove_selecting (σ : SysState) (c : ChatId) (u : UserId)
    (h : (σ.session c u).selecting = true) :
    step σ (Ev.cmd c u "remove") = ⟨σ, [], none⟩ := by
  simp only [step, if_neg (show ¬("remove" : String) = "start" by decide),
    if_neg (show ¬("remove" : String) = "help" by decide),
    if_neg (show ¬("remove" : String) = "list" by decide),
    if_neg (show ¬("remove" : String) = "clear" by decide),
    if_neg (show ¬("remove" : String) = "add" by decide), if_pos rfl, h]
  rfl

theorem step_cmd_cancel_add (σ : SysState) (c : ChatId) (u : UserId)
    (h : (σ.session c u).add.isSome = true) :
    step σ (Ev.cmd c u "cancel") =
      ⟨(σ.setSession c u { σ.session c u with add := none }).setUD u emptyUD,
        [Out.send "Operation cancelled."], none⟩ := by
  simp only [step, if_neg (show ¬("cancel" : String) = "start" by decide),
    if_neg (show ¬("cancel" : String) = "help" by decide),
    if_neg (show ¬("cancel" : String) = "list" by decide),
    if_neg (show ¬("cancel" : String) = "clear" by decide),
    if_neg (show ¬("cancel" : String) = "add" by decide),
    if_neg (show ¬("cancel" : String) = "remove" by decide), if_pos rfl, h]
  rfl

theorem step_msg_item (σ : SysState) (c : ChatId) (u : UserId) (t : String)
    (h : (σ.session c u).add = some AddState.item) :
    step σ (Ev.msg c u t) =
      ⟨(σ.setSession c u { σ.session c u with add := some AddState.person }).setUD u
          { σ.user_data u with item := some t },
        [Out.send "Who will provide this item?"], none⟩ := by
  simp only [step, h]
  rfl

theorem step_msg_person (σ : SysState) (c : ChatId) (u : UserId) (t : String)
    (h : (σ.session c u).add = some AddState.person) :
    step σ (Ev.msg c u t) =
      ⟨(σ.setSession c u { σ.session c u with add := some AddState.comment }).setUD u
          { σ.user_data u with person := some t },
        [Out.send "Any comments? (or type \x27none\x27 if no comments)"], none⟩ := by
  simp only [step, h]
  rfl

theorem step_msg_comment (σ : SysState) (c : ChatId) (u : UserId) (t : String)
    (h : (σ.session c u).add = some AddState.comment) :
    step σ (Ev.msg c u t) =
      (match (receive_comment σ.list_items c (σ.user_data u) t).err with
        | some e2 =>
          ⟨(σ.setStore (receive_comment σ.list_items c (σ.user_data u) t).store).setUD u
              (receive_comment σ.list_items c (σ.user_data u) t).ud,
            (receive_comment σ.list_items c (σ.user_data u) t).outs, some e2⟩
        | none =>
          ⟨((σ.setStore (receive_comment σ.list_items c (σ.user_data u) t).store).setSession c u
                { σ.session c u with add := none }).setUD u
              (receive_comment σ.list_items c (σ.user_data u) t).ud,
            (receive_comment σ.list_items c (σ.user_data u) t).outs, none⟩) := by
  simp only [step, h]

theorem step_msg_idle (σ : SysState) (c : ChatId) (u : UserId) (t : String)
    (h : (σ.session c u).add = none) :
    step σ (Ev.msg c u t) = ⟨σ, [], none⟩ := by
  simp only [step, h]

theorem step_cb_clear (σ : SysState) (c : ChatId) (u : UserId) (d : CbData)
    (h : isClearData d = true) :
    step σ (Ev.cb c u d) =
      ⟨σ.setStore (clear_button_callback σ.list_items c d).1,
        (clear_button_callback σ.list_items c d).2, none⟩ := by
  simp only [step, h]
  rfl

theorem step_cb_selecting (σ : SysState) (c : ChatId) (u : UserId) (d : CbData)
    (hd : isClearData d = false) (hsel : (σ.session c u).selecting = true) :
    step σ (Ev.cb c u d) =
      (match (button_callback σ.list_items c d).err with
        | some e2 =>
          ⟨σ.setStore (button_callback σ.list_items c d).store,
            (button_callback σ.list_items c d).outs, some e2⟩
        | none =>
          ⟨(σ.setStore (button_callback σ.list_items c d).store).setSession c u
              { σ.session c u with selecting := false },
            (button_callback σ.list_items c d).outs, none⟩) := by
  simp only [step, hd, hsel]
  rfl

theorem step_cb_idle (σ : SysState) (c : ChatId) (u : UserId) (d : CbData)
    (hd : isClearData d = false) (hsel : (σ.session c u).selecting = false) :
    step σ (Ev.cb c u d) = ⟨σ, [], none⟩ := by
  simp only [step, hd, hsel]
  rfl

theorem storeSet_isSome_mono (s : Store) (c c2 : ChatId) (l : List ListEntry)
    (h : (s c2).isSome = true) : ((storeSet s c l) c2).isSome = true := by
  unfold storeSet
  split <;> simp_all

theorem receive_comment_store_ne (s : Store) (c c2 : ChatId) (ud : UserData) (t : String)
    (h : c2 ≠ c) : (receive_comment s c ud t).store c2 = s c2 := by
  unfold receive_comment
  cases ud.item <;> cases ud.person <;>
    simp only [] <;>
    by_cases hc : s c = none <;>
    simp_all [storeSet]

theorem receive_comment_store_mono (s : Store) (c c2 : ChatId) (ud : UserData) (t : String)
    (h : (s c2).isSome = true) : ((receive_comment s c ud t).store c2).isSome = true := by
  unfold receive_comment
  cases ud.item <;> cases ud.person <;>
    simp only [] <;>
    by_cases hc : s c = none <;>
    simp_all [storeSet_isSome_mono]

theorem button_callback_store_ne (s : Store) (c c2 : ChatId) (d : CbData)
    (h : c2 ≠ c) : (button_callback s c d).store c2 = s c2 := by
  unfold button_callback
  cases d <;> simp only []
  case removeTag idx =>
    cases hs : s c with
    | none => rfl
    | some l =>
      by_cases hlt : idx < (l.length : Int)
      · simp only [if_pos hlt]
        cases hp : pythonPop l idx with
        | none => rfl
        | some r => simp [storeSet_ne s c c2 _ h]
      · simp [if_neg hlt]

theorem button_callback_store_mono (s : Store) (c c2 : ChatId) (d : CbData)
    (h : (s c2).isSome = true) : ((button_callback s c d).store c2).isSome = true := by
  unfold button_callback
  cases d <;> simp only [] <;> try exact h
  case removeTag idx =>
    cases hs : s c with
    | none => exact h
    | some l =>
      by_cases hlt : idx < (l.length : Int)
      · simp only [if_pos hlt]
        cases hp : pythonPop l idx with
        | none => exact h
        | some r => exact storeSet_isSome_mono s c c2 _ h
      · simp [if_neg hlt, h]

theorem clear_button_callback_store_ne (s : Store) (c c2 : ChatId) (d : CbData)
    (h : c2 ≠ c) : (clear_button_callback s c d).1 c2 = s c2 := by
  unfold clear_button_callback
  split <;> simp [storeSet_ne s c c2 _ h]

theorem clear_button_callback_store_mono (s : Store) (c c2 : ChatId) (d : CbData)
    (h : (s c2).isSome = true) : ((clear_button_callback s c d).1 c2).isSome = true := by
  unfold clear_button_callback
  split <;> simp [storeSet_isSome_mono, h]

theorem step_store_mono (σ : SysState) (e : Ev) (c : ChatId)
    (h : (σ.list_items c).isSome = true) :
    ((step σ e).state.list_items c).isSome = true := by
  cases e <;>
    simp only [step] <;>
    (repeat' split) <;>
    first
      | exact h
      | exact receive_comment_store_mono _ _ _ _ _ h
      | exact button_callback_store_mono _ _ _ _ h
      | exact clear_button_callback_store_mono _ _ _ _ h

theorem setSession_selInv (σ : SysState) (c : ChatId) (u : UserId) (v : Session)
    (h : SelInv σ) (hv : v.selecting = true → (σ.list_items c).isSome = true) :
    SelInv (σ.setSession c u v) := by
  intro c2 u2 hsel
  by_cases hk : c2 = c ∧ u2 = u
  · rcases hk with ⟨hc, hu⟩
    subst hc; subst hu
    rw [setSession_self] at hsel
    exact hv hsel
  · rw [setSession_ne σ c c2 u u2 v hk] at hsel
    exact h c2 u2 hsel

theorem setUD_selInv (σ : SysState) (u : UserId) (d : UserData) (h : SelInv σ) :
    SelInv (σ.setUD u d) := by
  intro c2 u2 hsel
  exact h c2 u2 hsel

theorem setStore_selInv (σ : SysState) (s : Store) (h : SelInv σ)
    (hs : ∀ c2, (σ.list_items c2).isSome = true → (s c2).isSome = true) :
    SelInv (σ.setStore s) := by
  intro c2 u2 hsel
  exact hs c2 (h c2 u2 hsel)

theorem remove_command_fst_isSome (s : Store) (c : ChatId)
    (h : (remove_command s c).1 = true) : (s c).isSome = true := by
  unfold remove_command at h
  by_cases he : listEntries s c = []
  · simp [he] at h
  · unfold listEntries at he
    cases hs : s c with
    | none => simp [hs] at he
    | some l => simp

theorem step_selInv (σ : SysState) (e : Ev) (h : SelInv σ) : SelInv (step σ e).state := by
  cases e <;>
    simp only [step] <;>
    (repeat' split) <;>
    first
      | exact h
      | exact setSession_selInv σ _ _ _ h (fun hv => h _ _ hv)
      | exact setUD_selInv _ _ _ (setSession_selInv σ _ _ _ h (fun hv => h _ _ hv))
      | exact setSession_selInv σ _ _ _ h
          (fun _ => remove_command_fst_isSome σ.list_items _ (by assumption))
      | exact setUD_selInv _ _ _ (setSession_selInv σ _ _ _ h (fun hv => by simp at hv))
      | exact setUD_selInv _ _ _ (setStore_selInv σ _ h
          (fun c2 hc2 => receive_comment_store_mono _ _ c2 _ _ hc2))
      | exact setUD_selInv _ _ _ (setSession_selInv (σ.setStore _) _ _ _
          (setStore_selInv σ _ h (fun c2 hc2 => receive_comment_store_mono _ _ c2 _ _ hc2))
          (fun hv => receive_comment_store_mono _ _ _ _ _ (h _ _ hv)))
      | exact setStore_selInv σ _ h
          (fun c2 hc2 => clear_button_callback_store_mono _ _ c2 _ hc2)
      | exact setStore_selInv σ _ h
          (fun c2 hc2 => button_callback_store_mono _ _ c2 _ hc2)
      | exact setSession_selInv (σ.setStore _) _ _ _
          (setStore_selInv σ _ h (fun c2 hc2 => button_callback_store_mono _ _ c2 _ hc2))
          (fun hv => by simp at hv)

theorem reachable_selInv (σ : SysState) (h : Reachable σ) : SelInv σ := by
  induction h with
  | init =>
    intro c u hsel
    simp [initState, idleSession] at hsel
  | step σ0 e _ ih => exact step_selInv σ0 e ih

theorem button_callback_no_keyError (s : Store) (c : ChatId) (d : CbData)
    (hs : (s c).isSome = true) :
    (button_callback s c d).err ≠ some PyError.keyError := by
  unfold button_callback
  cases d <;> try simp
  case removeTag idx =>
    cases hc : s c with
    | none => simp [hc] at hs
    | some l =>
      by_cases hlt : idx < (l.length : Int)
      · simp only [if_pos hlt]
        cases hp : pythonPop l idx with
        | none => simp
        | some r => simp
      · simp [if_neg hlt]

theorem receive_comment_ok (s : Store) (c : ChatId) (ud : UserData) (text i p : String)
    (hi : ud.item = some i) (hp : ud.person = some p) :
    (receive_comment s c ud text).err = none ∧
    (receive_comment s c ud text).ud = emptyUD ∧
    (receive_comment s c ud text).store c =
      some (listEntries s c ++ [⟨i, p, if pyLower text = "none" then "-" else text⟩]) := by
  unfold receive_comment
  simp only [hi, hp]
  by_cases hc : s c = none <;>
    simp [hc, listEntries, storeSet]

/-- C5: the clear operation (the "clear_confirm" branch of
`clear_button_callback`, dispatched from the /clear confirmation keyboard in
any session state) always succeeds and results in the conversation's stored
list being the empty sequence, whatever was stored before — including when no
list had ever been created for that conversation. -/
theorem C5_clear_results_in_empty (s : Store) (c : ChatId) (σ : SysState) (u : UserId) :
    (clear_button_callback s c CbData.clearConfirm).1 c = some [] ∧
    listEntries (clear_button_callback s c CbData.clearConfirm).1 c = [] ∧
    (step σ (Ev.cb c u CbData.clearConfirm)).state.list_items c = some [] ∧
    (step σ (Ev.cb c u CbData.clearConfirm)).err = none := by
  refine ⟨?_, ?_, ?_, ?_⟩ <;>
    simp [clear_button_callback, storeSet, listEntries, step, isClearData, SysState.setStore]

/-- C9: in the clear-confirmation dialog the confirm selection invokes the
clear operation — the conversation's list becomes the empty sequence — while
the deny selection leaves the stored list completely untouched, and each of
the two branches emits exactly one terminal confirmation message. -/
theorem C9_clear_confirm_or_deny (s : Store) (c : ChatId) :
    clear_button_callback s c CbData.clearConfirm =
      (storeSet s c [], [Out.edit "The list has been cleared."]) ∧
    listEntries (clear_button_callback s c CbData.clearConfirm).1 c = [] ∧
    clear_button_callback s c CbData.clearCancel =
      (s, [Out.edit "Clear operation cancelled. The list remains unchanged."]) := by
  refine ⟨?_, ?_, ?_⟩ <;> simp [clear_button_callback, listEntries, storeSet]

/-- C4: the add operation (`receive_comment`, completing the Add-Item dialog
with the partial data item `i` and person `p` collected) always succeeds,
creating the conversation's sequence if absent, and afterwards the stored list
is the old one with the new entry appended: the entry is its last element and
the length grew by exactly one. -/
theorem C4_add_appends_entry (s : Store) (c : ChatId) (ud : UserData) (text i p : String)
    (hi : ud.item = some i) (hp : ud.person = some p) :
    (receive_comment s c ud text).err = none ∧
    (receive_comment s c ud text).store c =
      some (listEntries s c ++ [⟨i, p, if pyLower text = "none" then "-" else text⟩]) ∧
    (listEntries (receive_comment s c ud text).store c).getLast? =
      some ⟨i, p, if pyLower text = "none" then "-" else text⟩ ∧
    (listEntries (receive_comment s c ud text).store c).length =
      (listEntries s c).length + 1 := by
  obtain ⟨he, -, hs⟩ := receive_comment_ok s c ud text i p hi hp
  refine ⟨he, hs, ?_, ?_⟩ <;> simp [listEntries, hs]

/-- Witness for C4: adding entry ("Milk", "Alice", "ok") to a one-entry list. -/
theorem C4_add_appends_entry_witness :
    ((⟨some "Milk", some "Alice"⟩ : UserData).item = some "Milk" ∧
      (⟨some "Milk", some "Alice"⟩ : UserData).person = some "Alice") ∧
    ((receive_comment oneEntryStore 0 ⟨some "Milk", some "Alice"⟩ "ok").err = none ∧
      (receive_comment oneEntryStore 0 ⟨some "Milk", some "Alice"⟩ "ok").store 0 =
        some (listEntries oneEntryStore 0 ++
          [⟨"Milk", "Alice", if pyLower "ok" = "none" then "-" else "ok"⟩]) ∧
      (listEntries (receive_comment oneEntryStore 0 ⟨some "Milk", some "Alice"⟩ "ok").store 0).getLast? =
        some ⟨"Milk", "Alice", if pyLower "ok" = "none" then "-" else "ok"⟩ ∧
      (listEntries (receive_comment oneEntryStore 0 ⟨some "Milk", some "Alice"⟩ "ok").store 0).length =
        (listEntries oneEntryStore 0).length + 1) :=
  ⟨⟨rfl, rfl⟩, C4_add_appends_entry oneEntryStore 0 ⟨some "Milk", some "Alice"⟩ "ok" "Milk" "Alice" rfl rfl⟩

/-- C6: running the Add-Item dialog to completion with the free-text answers
item "Milk", person "Alice", comment "none" stores exactly the entry
(item "Milk", person "Alice", comment "-"); in general the third answer is
stored verbatim as the comment unless its lowercasing is the literal "none",
in which case the sentinel "-" is stored. -/
theorem C6_dialog_comment_sentinel :
    listEntries (multiStep initState
        [Ev.cmd 0 7 "add", Ev.msg 0 7 "Milk", Ev.msg 0 7 "Alice", Ev.msg 0 7 "none"]).list_items 0 =
      [⟨"Milk", "Alice", "-"⟩] ∧
    ∀ (s : Store) (c : ChatId) (t1 t2 t3 : String),
      (runAddDialog s c t1 t2 t3).err = none ∧
      listEntries (runAddDialog s c t1 t2 t3).store c =
        listEntries s c ++ [⟨t1, t2, if pyLower t3 = "none" then "-" else t3⟩] := by
  constructor
  · rfl
  · intro s c t1 t2 t3
    obtain ⟨he, -, hs⟩ := receive_comment_ok s c ⟨some t1, some t2⟩ t3 t1 t2 rfl rfl
    exact ⟨he, by simp [runAddDialog, receive_item, receive_person, listEntries, hs]⟩

/-- C2: a removal selection whose index is no longer valid for the current list
— every index the menu ever presented is at least the current length once the
list shrank under it, e.g. after being drained to 0 entries — makes the
resolver emit exactly one error message, end the remove dialog (no retry),
raise no exception, and leave the conversation's stored list completely
unchanged. -/
theorem C2_stale_selection_not_found (σ : SysState) (c : ChatId) (u : UserId)
    (l : List ListEntry) (idx : Int)
    (hsel : (σ.session c u).selecting = true)
    (hstore : σ.list_items c = some l)
    (hstale : (l.length : Int) ≤ idx) :
    step σ (Ev.cb c u (CbData.removeTag idx)) =
      ⟨σ.setSession c u { σ.session c u with selecting := false },
        [Out.edit "Error: Item not found."], none⟩ ∧
    (step σ (Ev.cb c u (CbData.removeTag idx))).state.list_items = σ.list_items ∧
    ((step σ (Ev.cb c u (CbData.removeTag idx))).state.session c u).selecting = false ∧
    (step σ (Ev.cb c u (CbData.removeTag idx))).outs = [Out.edit "Error: Item not found."] ∧
    (step σ (Ev.cb c u (CbData.removeTag idx))).err = none := by
  have hbc : button_callback σ.list_items c (CbData.removeTag idx) =
      ⟨σ.list_items, [Out.edit "Error: Item not found."], none⟩ := by
    unfold button_callback
    simp only [hstore]
    rw [if_neg (by omega : ¬ idx < (l.length : Int))]
  have hstep := step_cb_selecting σ c u (CbData.removeTag idx) rfl hsel
  rw [hbc] at hstep
  rw [hstep]
  exact ⟨rfl, rfl, by rw [setSession_self], rfl, rfl⟩

/-- Witness for C2: a stale index 3 against a list drained to 0 entries. -/
theorem C2_stale_selection_not_found_witness :
    ((drainedSelState.session 0 7).selecting = true ∧
      drainedSelState.list_items 0 = some [] ∧
      ((List.length ([] : List ListEntry) : Int) ≤ 3)) ∧
    (step drainedSelState (Ev.cb 0 7 (CbData.removeTag 3)) =
      ⟨drainedSelState.setSession 0 7 { drainedSelState.session 0 7 with selecting := false },
        [Out.edit "Error: Item not found."], none⟩ ∧
    (step drainedSelState (Ev.cb 0 7 (CbData.removeTag 3))).state.list_items =
      drainedSelState.list_items ∧
    ((step drainedSelState (Ev.cb 0 7 (CbData.removeTag 3))).state.session 0 7).selecting = false ∧
    (step drainedSelState (Ev.cb 0 7 (CbData.removeTag 3))).outs =
      [Out.edit "Error: Item not found."] ∧
    (step drainedSelState (Ev.cb 0 7 (CbData.removeTag 3))).err = none) :=
  ⟨⟨rfl, rfl, by decide⟩,
    C2_stale_selection_not_found drainedSelState 0 7 [] 3 rfl rfl (by decide)⟩

/-- C1 counterexample: with one stored entry (N = 1) the selection index -1
lies outside [0, N), so the claim demands a NotFound failure; but the code's
guard `idx < len` passes and Python pop removes the last entry — the removal
succeeds, empties the list and reports the removed entry. -/
theorem C1_counterexample :
    (button_callback oneEntryStore 0 (CbData.removeTag (-1))).outs =
      [Out.edit "Removed: A (Person: B)"] ∧
    (button_callback oneEntryStore 0 (CbData.removeTag (-1))).err = none ∧
    (button_callback oneEntryStore 0 (CbData.removeTag (-1))).store 0 = some [] := by
  refine ⟨?_, ?_, ?_⟩ <;> rfl

/-- C1 (amended): for selection indices idx ≥ 0 — all indices the bot itself
places on removal buttons — removal succeeds iff idx < N: on success no
exception is raised, the stored list becomes the original with position idx
removed (length N-1, earlier entries unchanged, later entries shifted down by
one) and the removed entry is named in the confirmation message; for idx ≥ N
it fails with the NotFound message and the store is untouched.  (For a forged
negative index the code does not report NotFound but applies Python pop
semantics, removing from the end of the list — see the counterexample.) -/
theorem C1_removeAt_amended (s : Store) (c : ChatId) (l : List ListEntry) (idx : Int)
    (hs : s c = some l) (h0 : 0 ≤ idx) :
    ((idx < (l.length : Int) →
      (button_callback s c (CbData.removeTag idx)).err = none ∧
      (button_callback s c (CbData.removeTag idx)).store c = some (l.eraseIdx idx.toNat) ∧
      (∃ e2, l[idx.toNat]? = some e2 ∧
        (button_callback s c (CbData.removeTag idx)).outs =
          [Out.edit ("Removed: " ++ e2.item ++ " (Person: " ++ e2.person ++ ")")]) ∧
      (l.eraseIdx idx.toNat).length + 1 = l.length ∧
      (∀ j : Nat, j < idx.toNat → (l.eraseIdx idx.toNat)[j]? = l[j]?) ∧
      (∀ j : Nat, idx.toNat ≤ j → (l.eraseIdx idx.toNat)[j]? = l[j + 1]?)) ∧
    ((l.length : Int) ≤ idx →
      button_callback s c (CbData.removeTag idx) =
        ⟨s, [Out.edit "Error: Item not found."], none⟩)) := by
  constructor
  · intro hlt
    have hn : idx.toNat < l.length := by omega
    have hpop : pythonPop l idx = some (l.get ⟨idx.toNat, hn⟩, l.eraseIdx idx.toNat) := by
      have hneg : (if idx < 0 then idx + (l.length : Int) else idx) = idx := if_neg (by omega)
      simp only [pythonPop, hneg]
      rw [dif_pos ⟨h0, hlt⟩]
    have hbc : button_callback s c (CbData.removeTag idx) =
        ⟨storeSet s c (l.eraseIdx idx.toNat),
          [Out.edit ("Removed: " ++ (l.get ⟨idx.toNat, hn⟩).item ++ " (Person: " ++
            (l.get ⟨idx.toNat, hn⟩).person ++ ")")], none⟩ := by
      unfold button_callback
      simp only [hs]
      rw [if_pos hlt, hpop]
    refine ⟨by rw [hbc], by rw [hbc]; exact storeSet_self s c _, ?_, ?_, ?_, ?_⟩
    · exact ⟨l.get ⟨idx.toNat, hn⟩, by simp, by rw [hbc]⟩
    · rw [List.length_eraseIdx, if_pos hn]
      omega
    · intro j hj
      rw [List.getElem?_eraseIdx, if_pos hj]
    · intro j hj
      rw [List.getElem?_eraseIdx, if_neg (by omega)]
  · intro hge
    unfold button_callback
    simp only [hs]
    rw [if_neg (by omega : ¬ idx < (l.length : Int))]

/-- Witness for C1 (amended): removing index 0 from a two-entry list, and the
NotFound branch for index 5. -/
theorem C1_removeAt_amended_witness :
    (twoEntryStore 0 = some [⟨"A", "B", "x"⟩, ⟨"C", "D", "y"⟩] ∧ (0 : Int) ≤ 0) ∧
    ((((0 : Int) < (([⟨"A", "B", "x"⟩, ⟨"C", "D", "y"⟩] : List ListEntry).length : Int) →
      (button_callback twoEntryStore 0 (CbData.removeTag 0)).err = none ∧
      (button_callback twoEntryStore 0 (CbData.removeTag 0)).store 0 =
        some (([⟨"A", "B", "x"⟩, ⟨"C", "D", "y"⟩] : List ListEntry).eraseIdx (0 : Int).toNat) ∧
      (∃ e2, ([⟨"A", "B", "x"⟩, ⟨"C", "D", "y"⟩] : List ListEntry)[(0 : Int).toNat]? = some e2 ∧
        (button_callback twoEntryStore 0 (CbData.removeTag 0)).outs =
          [Out.edit ("Removed: " ++ e2.item ++ " (Person: " ++ e2.person ++ ")")]) ∧
      (([⟨"A", "B", "x"⟩, ⟨"C", "D", "y"⟩] : List ListEntry).eraseIdx (0 : Int).toNat).length + 1 =
        ([⟨"A", "B", "x"⟩, ⟨"C", "D", "y"⟩] : List ListEntry).length ∧
      (∀ j : Nat, j < (0 : Int).toNat →
        (([⟨"A", "B", "x"⟩, ⟨"C", "D", "y"⟩] : List ListEntry).eraseIdx (0 : Int).toNat)[j]? =
          ([⟨"A", "B", "x"⟩, ⟨"C", "D", "y"⟩] : List ListEntry)[j]?) ∧
      (∀ j : Nat, (0 : Int).toNat ≤ j →
        (([⟨"A", "B", "x"⟩, ⟨"C", "D", "y"⟩] : List ListEntry).eraseIdx (0 : Int).toNat)[j]? =
          ([⟨"A", "B", "x"⟩, ⟨"C", "D", "y"⟩] : List ListEntry)[j + 1]?)) ∧
    ((([⟨"A", "B", "x"⟩, ⟨"C", "D", "y"⟩] : List ListEntry).length : Int) ≤ (0 : Int) →
      button_callback twoEntryStore 0 (CbData.removeTag 0) =
        ⟨twoEntryStore, [Out.edit "Error: Item not found."], none⟩))) :=
  ⟨⟨rfl, by decide⟩,
    C1_removeAt_amended twoEntryStore 0 [⟨"A", "B", "x"⟩, ⟨"C", "D", "y"⟩] 0 rfl (by decide)⟩

theorem cancel_from_add_active (σ : SysState) (c : ChatId) (u : UserId)
    (h : (σ.session c u).add.isSome = true) :
    (step σ (Ev.cmd c u "cancel")).state.list_items = σ.list_items ∧
    (step σ (Ev.cmd c u "cancel")).state.user_data u = emptyUD ∧
    ((step σ (Ev.cmd c u "cancel")).state.session c u).add = none ∧
    (step σ (Ev.cmd c u "cancel")).outs = [Out.send "Operation cancelled."] := by
  rw [step_cmd_cancel_add σ c u h]
  refine ⟨rfl, setUD_self _ u _, ?_, rfl⟩
  show ((σ.setSession c u { σ.session c u with add := none }).session c u).add = none
  rw [setSession_self]

/-- C7: starting the Add-Item dialog and issuing /cancel from any of its three
awaiting states (right after /add, after answering the item, or after also
answering the person) leaves the conversation's stored list exactly as it was
before the dialog started, discards all partial session data (user_data is
cleared), resets the session to idle and acknowledges. -/
theorem C7_cancel_restores_idle (σ : SysState) (c : ChatId) (u : UserId) (t1 t2 : String)
    (h : (σ.session c u).add = none) :
    ((step (multiStep σ [Ev.cmd c u "add"]) (Ev.cmd c u "cancel")).state.list_items =
        σ.list_items ∧
      (step (multiStep σ [Ev.cmd c u "add"]) (Ev.cmd c u "cancel")).state.user_data u = emptyUD ∧
      ((step (multiStep σ [Ev.cmd c u "add"]) (Ev.cmd c u "cancel")).state.session c u).add =
        none ∧
      (step (multiStep σ [Ev.cmd c u "add"]) (Ev.cmd c u "cancel")).outs =
        [Out.send "Operation cancelled."]) ∧
    ((step (multiStep σ [Ev.cmd c u "add", Ev.msg c u t1]) (Ev.cmd c u "cancel")).state.list_items =
        σ.list_items ∧
      (step (multiStep σ [Ev.cmd c u "add", Ev.msg c u t1]) (Ev.cmd c u "cancel")).state.user_data u =
        emptyUD ∧
      ((step (multiStep σ [Ev.cmd c u "add", Ev.msg c u t1])
          (Ev.cmd c u "cancel")).state.session c u).add = none ∧
      (step (multiStep σ [Ev.cmd c u "add", Ev.msg c u t1]) (Ev.cmd c u "cancel")).outs =
        [Out.send "Operation cancelled."]) ∧
    ((step (multiStep σ [Ev.cmd c u "add", Ev.msg c u t1, Ev.msg c u t2])
        (Ev.cmd c u "cancel")).state.list_items = σ.list_items ∧
      (step (multiStep σ [Ev.cmd c u "add", Ev.msg c u t1, Ev.msg c u t2])
        (Ev.cmd c u "cancel")).state.user_data u = emptyUD ∧
      ((step (multiStep σ [Ev.cmd c u "add", Ev.msg c u t1, Ev.msg c u t2])
        (Ev.cmd c u "cancel")).state.session c u).add = none ∧
      (step (multiStep σ [Ev.cmd c u "add", Ev.msg c u t1, Ev.msg c u t2])
        (Ev.cmd c u "cancel")).outs = [Out.send "Operation cancelled."]) := by
  have e1 : multiStep σ [Ev.cmd c u "add"] =
      σ.setSession c u { σ.session c u with add := some AddState.item } := by
    show (step σ (Ev.cmd c u "add")).state = _
    rw [step_cmd_add_idle σ c u h]
  have hit1 : ((multiStep σ [Ev.cmd c u "add"]).session c u).add = some AddState.item := by
    rw [e1, setSession_self]
  have hl1 : (multiStep σ [Ev.cmd c u "add"]).list_items = σ.list_items := by
    rw [e1]
    rfl
  have e2 : multiStep σ [Ev.cmd c u "add", Ev.msg c u t1] =
      ((multiStep σ [Ev.cmd c u "add"]).setSession c u
          { (multiStep σ [Ev.cmd c u "add"]).session c u with add := some AddState.person }).setUD
        u { (multiStep σ [Ev.cmd c u "add"]).user_data u with item := some t1 } := by
    show (step (multiStep σ [Ev.cmd c u "add"]) (Ev.msg c u t1)).state = _
    rw [step_msg_item _ c u t1 hit1]
  have hit2 : ((multiStep σ [Ev.cmd c u "add", Ev.msg c u t1]).session c u).add =
      some AddState.person := by
    rw [e2, setUD_session, setSession_self]
  have hl2 : (multiStep σ [Ev.cmd c u "add", Ev.msg c u t1]).list_items = σ.list_items := by
    rw [e2]
    exact hl1
  have e3 : multiStep σ [Ev.cmd c u "add", Ev.msg c u t1, Ev.msg c u t2] =
      ((multiStep σ [Ev.cmd c u "add", Ev.msg c u t1]).setSession c u
          { (multiStep σ [Ev.cmd c u "add", Ev.msg c u t1]).session c u with
              add := some AddState.comment }).setUD
        u { (multiStep σ [Ev.cmd c u "add", Ev.msg c u t1]).user_data u with person := some t2 } := by
    show (step (multiStep σ [Ev.cmd c u "add", Ev.msg c u t1]) (Ev.msg c u t2)).state = _
    rw [step_msg_person _ c u t2 hit2]
  have hit3 : ((multiStep σ [Ev.cmd c u "add", Ev.msg c u t1, Ev.msg c u t2]).session c u).add =
      some AddState.comment := by
    rw [e3, setUD_session, setSession_self]
  have hl3 : (multiStep σ [Ev.cmd c u "add", Ev.msg c u t1, Ev.msg c u t2]).list_items =
      σ.list_items := by
    rw [e3]
    exact hl2
  obtain ⟨a1, b1, d1, o1⟩ := cancel_from_add_active _ c u (by rw [hit1]; rfl)
  obtain ⟨a2, b2, d2, o2⟩ := cancel_from_add_active _ c u (by rw [hit2]; rfl)
  obtain ⟨a3, b3, d3, o3⟩ := cancel_from_add_active _ c u (by rw [hit3]; rfl)
  exact ⟨⟨a1.trans hl1, b1, d1, o1⟩, ⟨a2.trans hl2, b2, d2, o2⟩, ⟨a3.trans hl3, b3, d3, o3⟩⟩

/-- Witness for C7: the dialog run from the fresh state in chat 0 by user 7
with answers "Milk" and "Alice", cancelled at each stage. -/
theorem C7_cancel_restores_idle_witness :
    (initState.session 0 7).add = none ∧
    (((step (multiStep initState [Ev.cmd 0 7 "add"]) (Ev.cmd 0 7 "cancel")).state.list_items =
        initState.list_items ∧
      (step (multiStep initState [Ev.cmd 0 7 "add"]) (Ev.cmd 0 7 "cancel")).state.user_data 7 = emptyUD ∧
      ((step (multiStep initState [Ev.cmd 0 7 "add"]) (Ev.cmd 0 7 "cancel")).state.session 0 7).add =
        none ∧
      (step (multiStep initState [Ev.cmd 0 7 "add"]) (Ev.cmd 0 7 "cancel")).outs =
        [Out.send "Operation cancelled."]) ∧
    ((step (multiStep initState [Ev.cmd 0 7 "add", Ev.msg 0 7 "Milk"]) (Ev.cmd 0 7 "cancel")).state.list_items =
        initState.list_items ∧
      (step (multiStep initState [Ev.cmd 0 7 "add", Ev.msg 0 7 "Milk"]) (Ev.cmd 0 7 "cancel")).state.user_data 7 =
        emptyUD ∧
      ((step (multiStep initState [Ev.cmd 0 7 "add", Ev.msg 0 7 "Milk"])
          (Ev.cmd 0 7 "cancel")).state.session 0 7).add = none ∧
      (step (multiStep initState [Ev.cmd 0 7 "add", Ev.msg 0 7 "Milk"]) (Ev.cmd 0 7 "cancel")).outs =
        [Out.send "Operation cancelled."]) ∧
    ((step (multiStep initState [Ev.cmd 0 7 "add", Ev.msg 0 7 "Milk", Ev.msg 0 7 "Alice"])
        (Ev.cmd 0 7 "cancel")).state.list_items = initState.list_items ∧
      (step (multiStep initState [Ev.cmd 0 7 "add", Ev.msg 0 7 "Milk", Ev.msg 0 7 "Alice"])
        (Ev.cmd 0 7 "cancel")).state.user_data 7 = emptyUD ∧
      ((step (multiStep initState [Ev.cmd 0 7 "add", Ev.msg 0 7 "Milk", Ev.msg 0 7 "Alice"])
        (Ev.cmd 0 7 "cancel")).state.session 0 7).add = none ∧
      (step (multiStep initState [Ev.cmd 0 7 "add", Ev.msg 0 7 "Milk", Ev.msg 0 7 "Alice"])
        (Ev.cmd 0 7 "cancel")).outs = [Out.send "Operation cancelled."])) :=
  ⟨rfl, C7_cancel_restores_idle initState 0 7 "Milk" "Alice" rfl⟩

/-- C3 counterexample: with the add dialog of chat 1 / user 7 awaiting the
person (partial item "Milk" already collected), the dialog entry command /add
matches no handler at all: the session is NOT replaced by the new dialog's
initial state, no reply is sent, the partial data survives, and the resumed
dialog later stores an entry containing it. -/
theorem C3_counterexample :
    (midAddState.session 1 7).add = some AddState.person ∧
    (midAddState.user_data 7).item = some "Milk" ∧
    step midAddState (Ev.cmd 1 7 "add") = ⟨midAddState, [], none⟩ ∧
    listEntries (multiStep midAddState
        [Ev.cmd 1 7 "add", Ev.msg 1 7 "Alice", Ev.msg 1 7 "c"]).list_items 1 =
      [⟨"Milk", "Alice", "c"⟩] := by
  refine ⟨rfl, rfl, rfl, rfl⟩

/-- C3 (amended): a dialog entry command issued while an add dialog is in
progress does not replace that dialog: /add is ignored outright (no handler
fires; session state, partial data and store unchanged), and /remove starts
the remove dialog alongside, leaving the add conversation's state, every
user's partial data, and the store untouched. -/
theorem C3_entry_does_not_replace (σ : SysState) (c : ChatId) (u : UserId)
    (h : (σ.session c u).add.isSome = true) :
    step σ (Ev.cmd c u "add") = ⟨σ, [], none⟩ ∧
    ((step σ (Ev.cmd c u "remove")).state.session c u).add = (σ.session c u).add ∧
    (step σ (Ev.cmd c u "remove")).state.user_data = σ.user_data ∧
    (step σ (Ev.cmd c u "remove")).state.list_items = σ.list_items ∧
    (step σ (Ev.cmd c u "remove")).err = none := by
  have hrem : ((step σ (Ev.cmd c u "remove")).state.session c u).add = (σ.session c u).add ∧
      (step σ (Ev.cmd c u "remove")).state.user_data = σ.user_data ∧
      (step σ (Ev.cmd c u "remove")).state.list_items = σ.list_items ∧
      (step σ (Ev.cmd c u "remove")).err = none := by
    by_cases hsel : (σ.session c u).selecting = true
    · rw [step_cmd_remove_selecting σ c u hsel]
      exact ⟨rfl, rfl, rfl, rfl⟩
    · rw [step_cmd_remove σ c u (by simpa using hsel)]
      by_cases hr : (remove_command σ.list_items c).1 = true
      · rw [if_pos hr]
        refine ⟨?_, rfl, rfl, rfl⟩
        show ((σ.setSession c u { σ.session c u with selecting := true }).session c u).add = _
        rw [setSession_self]
      · rw [if_neg hr]
        exact ⟨rfl, rfl, rfl, rfl⟩
  exact ⟨step_cmd_add_active σ c u h, hrem.1, hrem.2.1, hrem.2.2.1, hrem.2.2.2⟩

/-- Witness for C3 (amended) at the concrete mid-dialog state. -/
theorem C3_entry_does_not_replace_witness :
    (midAddState.session 1 7).add.isSome = true ∧
    (step midAddState (Ev.cmd 1 7 "add") = ⟨midAddState, [], none⟩ ∧
      ((step midAddState (Ev.cmd 1 7 "remove")).state.session 1 7).add =
        (midAddState.session 1 7).add ∧
      (step midAddState (Ev.cmd 1 7 "remove")).state.user_data = midAddState.user_data ∧
      (step midAddState (Ev.cmd 1 7 "remove")).state.list_items = midAddState.list_items ∧
      (step midAddState (Ev.cmd 1 7 "remove")).err = none) :=
  ⟨rfl, C3_entry_does_not_replace midAddState 1 7 rfl⟩

/-- C8 counterexample: conversations are not fully independent.  User 7's add
dialog in chat 2 awaits the person with partial item "Beer" (spec session
AwaitingPerson "Beer"); the same user answering the first add question in chat
1 — an operation in a different conversation — overwrites the shared per-user
user_data, turning chat 2's spec-level session into AwaitingPerson "Milk", and
the entry chat 2's dialog finally stores carries chat 1's partial item. -/
theorem C8_counterexample :
    specSessionState twoChatState 2 7 = SessionState.awaitingPerson "Beer" ∧
    (Ev.msg 1 7 "Milk").chat ≠ (2 : ChatId) ∧
    specSessionState (step twoChatState (Ev.msg 1 7 "Milk")).state 2 7 =
      SessionState.awaitingPerson "Milk" ∧
    listEntries (multiStep twoChatState
        [Ev.msg 1 7 "Milk", Ev.msg 2 7 "Bob", Ev.msg 2 7 "c"]).list_items 2 =
      [⟨"Milk", "Bob", "c"⟩] := by
  refine ⟨rfl, by decide, rfl, rfl⟩

set_option maxHeartbeats 1600000 in
/-- C8 (amended): an event arriving in conversation A never changes another
conversation B's stored list nor any of B's conversation-handler states, and
never changes the user_data of any user other than the event's sender; full
independence fails only in that the sender's partial dialog data (user_data,
keyed by user alone) is shared across that user's chats — see the
counterexample. -/
theorem C8_cross_conversation_frame (σ : SysState) (e : Ev) (B : ChatId) (v : UserId)
    (hB : e.chat ≠ B) :
    (step σ e).state.list_items B = σ.list_items B ∧
    (step σ e).state.session B v = σ.session B v ∧
    (∀ w : UserId, w ≠ e.user → (step σ e).state.user_data w = σ.user_data w) := by
  cases e with
  | cmd c u name =>
    replace hB : c ≠ B := hB
    refine ⟨?_, ?_, fun w hw => ?_⟩ <;>
      simp only [step] <;>
      (repeat' split) <;>
      first
        | rfl
        | exact setSession_ne _ _ B _ v _ (fun hk => hB hk.1.symm)
        | exact setUD_ne _ _ w _ hw
  | msg c u t =>
    replace hB : c ≠ B := hB
    refine ⟨?_, ?_, fun w hw => ?_⟩ <;>
      simp only [step] <;>
      (repeat' split) <;>
      first
        | rfl
        | exact receive_comment_store_ne _ _ B _ _ (Ne.symm hB)
        | exact setSession_ne _ _ B _ v _ (fun hk => hB hk.1.symm)
        | exact setUD_ne _ _ w _ hw
  | cb c u d =>
    replace hB : c ≠ B := hB
    refine ⟨?_, ?_, fun w hw => ?_⟩ <;>
      simp only [step] <;>
      (repeat' split) <;>
      first
        | rfl
        | exact button_callback_store_ne _ _ B _ (Ne.symm hB)
        | exact clear_button_callback_store_ne _ _ B _ (Ne.symm hB)
        | exact setSession_ne _ _ B _ v _ (fun hk => hB hk.1.symm)

/-- Witness for C8 (amended): an add answer in chat 1 leaves chat 2's list,
chat 2's sessions, and other users' data unchanged. -/
theorem C8_cross_conversation_frame_witness :
    (Ev.msg 1 7 "Milk").chat ≠ (2 : ChatId) ∧
    ((step twoChatState (Ev.msg 1 7 "Milk")).state.list_items 2 =
        twoChatState.list_items 2 ∧
      (step twoChatState (Ev.msg 1 7 "Milk")).state.session 2 9 =
        twoChatState.session 2 9 ∧
      (∀ w : UserId, w ≠ (Ev.msg 1 7 "Milk").user →
        (step twoChatState (Ev.msg 1 7 "Milk")).state.user_data w =
          twoChatState.user_data w)) :=
  ⟨by decide, C8_cross_conversation_frame twoChatState (Ev.msg 1 7 "Milk") 2 9 (by decide)⟩

/-- C10: no handler ever deletes a conversation's key from the store — every
key present in `list_items` before a dispatch round is still present after it
(clearing replaces the sequence with an empty one rather than removing the
key) — and consequently, in every reachable state, dispatching a callback
event never raises the missing-key error: the unguarded `list_items[chat_id]`
lookup of the removal resolver is protected, since a live removal menu implies
the key exists. -/
theorem C10_store_keys_persist :
    (∀ (σ : SysState) (e : Ev) (c : ChatId),
        (σ.list_items c).isSome = true → ((step σ e).state.list_items c).isSome = true) ∧
    (∀ (σ : SysState), Reachable σ →
      ∀ (c : ChatId) (u : UserId) (d : CbData),
        (step σ (Ev.cb c u d)).err ≠ some PyError.keyError) := by
  constructor
  · exact fun σ e c h => step_store_mono σ e c h
  · intro σ hσ c u d
    by_cases hd : isClearData d = true
    · rw [step_cb_clear σ c u d hd]
      simp
    · by_cases hsel : (σ.session c u).selecting = true
      · rw [step_cb_selecting σ c u d (by simpa using hd) hsel]
        have hkey := reachable_selInv σ hσ c u hsel
        have hne := button_callback_no_keyError σ.list_items c d hkey
        cases hb : (button_callback σ.list_items c d).err with
        | none => simp
        | some e2 =>
          rw [hb] at hne
          simpa using hne
      · rw [step_cb_idle σ c u d (by simpa using hd) (by simpa using hsel)]
        simp

/-- Witness for C10: the key of chat 0 survives a clear-confirm dispatch, and a
removal callback dispatched in the (reachable) fresh state raises no
missing-key error. -/
theorem C10_store_keys_persist_witness :
    (((initState.setStore oneEntryStore).list_items 0).isSome = true ∧
      ((step (initState.setStore oneEntryStore)
        (Ev.cb 0 7 CbData.clearConfirm)).state.list_items 0).isSome = true) ∧
    (Reachable initState ∧
      (step initState (Ev.cb 0 7 (CbData.removeTag 0))).err ≠ some PyError.keyError) :=
  ⟨⟨rfl, C10_store_keys_persist.1 (initState.setStore oneEntryStore)
      (Ev.cb 0 7 CbData.clearConfirm) 0 rfl⟩,
    ⟨Reachable.init, C10_store_keys_persist.2 initState Reachable.init 0 7 (CbData.removeTag 0)⟩⟩
